import Mathlib

/-!
Shallow embedding of the ssl-cert-monitor-lambda core:
the certificate chain validator (`src/cert.rs`), the per-domain status
construction in the monitor handler (`src/main.rs`), and the result
aggregator of the reporter lambda (`ssl-cert-reporter-lambda/src/main.rs`).

Timestamps (`chrono::DateTime<Utc>`) are modelled as integers (seconds);
`chrono::Days::new d` added to a timestamp advances it by `86400 * d`
seconds.  A raw DER certificate blob is abstracted by its decode result:
either the decoded validity window (`not_before`, `not_after`) or a decoder
diagnostic.  Fallible Rust functions returning `Result` are embedded as
`Except`; the places where the source calls `.unwrap()` on a fallible value
are embedded with an explicit `panic` outcome so that a panic is
distinguishable from a returned error.
-/

namespace SslCertMonitor

/-- The error enum of `src/error.rs` (payloads modelled as strings). -/
inductive MonitorError where
  | Network (msg : String)
  | Tls (msg : String)
  | Certificate (msg : String)
  | Config (msg : String)
  | Expired
  | General (msg : String)
  deriving Repr, DecidableEq

/-- `Display` of `MonitorError` as generated by the `thiserror` attributes. -/
def MonitorError.toMessage : MonitorError → String
  | .Network msg => "network error: " ++ msg
  | .Tls msg => "TLS error: " ++ msg
  | .Certificate msg => "certificate error: " ++ msg
  | .Config msg => "config error: " ++ msg
  | .Expired => "certificate expired"
  | .General msg => "general error: " ++ msg

/-- A raw certificate blob, abstracted by what `X509Certificate::from_der`
does with it: `ok nb na` decodes to the validity window `[nb, na]`,
`bad diag` fails to decode with the diagnostic `diag`. -/
inductive CertBlob where
  | ok (notBefore notAfter : Int)
  | bad (diag : String)
  deriving Repr, DecidableEq

/-- Adding `chrono::Days::new d` to a timestamp (seconds). -/
def addDays (t : Int) (d : Nat) : Int := t + 86400 * (d : Int)

/-- The `Validator` struct of `src/cert.rs` (the TLS client config field is
irrelevant to validation and omitted). -/
structure Validator where
  max_expiration : Nat
  now : Int
  deriving Repr, DecidableEq

/-- `Validator::validate_certificate` (src/cert.rs lines 71 to 93): decode
the blob, then compare `now` against the validity window and against
`now + Days(max_expiration)`. -/
def Validator.validate_certificate (v : Validator) (blob : CertBlob) :
    Except MonitorError Bool :=
  match blob with
  | .bad diag => .error (.Certificate diag)
  | .ok nb na =>
    let required_expiry_date := addDays v.now v.max_expiration
    if v.now < nb then
      .error (.Certificate "Certificate is before")
    else if v.now > na then
      .error (.Certificate "Certificate is after")
    else if required_expiry_date ≥ na then
      .ok false
    else
      .ok true

/-- The loop of `Validator::validate_certificates`:
`result = result && self.validate_certificate(cert)?`.  Rust `&&` is lazy,
so when the accumulator is `false` the right-hand side is not evaluated at
all (no decode, no error propagation). -/
def Validator.validateLoop (v : Validator) :
    List CertBlob → Bool → Except MonitorError Bool
  | [], result => .ok result
  | cert :: rest, result =>
    if result then
      match v.validate_certificate cert with
      | .error e => .error e
      | .ok b => v.validateLoop rest b
    else
      v.validateLoop rest false

/-- `Validator::validate_certificates` (src/cert.rs lines 95 to 107):
reject chains shorter than 2, then fold with `let mut result = false`. -/
def Validator.validate_certificates (v : Validator)
    (certificate_blobs : List CertBlob) : Except MonitorError Bool :=
  if certificate_blobs.length < 2 then
    .error (.Certificate "No certificates in chain")
  else
    v.validateLoop certificate_blobs false

/-- Outcome of a call that may panic (Rust `.unwrap()` on an `Err`) in
addition to returning an error or a value. -/
inductive FetchResult (α : Type) where
  | panicked (msg : String)
  | error (e : MonitorError)
  | ok (a : α)
  deriving Repr, DecidableEq

/-- Outcome of `read_to_end` on the TLS stream. -/
inductive ReadOutcome where
  | ok
  | unexpectedEof
  | err (msg : String)
  deriving Repr, DecidableEq

/-- The environment a `read_certificates` call observes: the outcome of each
I/O step, in the order the source performs them. -/
structure NetworkEnv where
  server_name : Except String Unit
  conn_setup : Except String Unit
  tcp_connect : Except String Unit
  write_result : Except String Unit
  flush_result : Except String Unit
  read_result : ReadOutcome
  peer_certificates : Option (List CertBlob)
  deriving Repr

/-- `Validator::read_certificates` (src/cert.rs lines 32 to 69) over an
abstract network environment.  The server-name conversion and
`TcpStream::connect` results are consumed with `.unwrap()` in the source,
so their failures are panics, not `MonitorError`s; connection setup,
write, flush and read failures are mapped to `Network` errors; a read that
ends with `UnexpectedEof` counts as success; an absent peer chain is a
`Certificate` error. -/
def read_certificates (env : NetworkEnv) : FetchResult (List CertBlob) :=
  match env.server_name with
  | .error msg => .panicked msg
  | .ok _ =>
  match env.conn_setup with
  | .error err => .error (.Network err)
  | .ok _ =>
  match env.tcp_connect with
  | .error msg => .panicked msg
  | .ok _ =>
  match env.write_result with
  | .error err => .error (.Network ("Write err: " ++ err))
  | .ok _ =>
  match env.flush_result with
  | .error err => .error (.Network ("Flush err: " ++ err))
  | .ok _ =>
  match env.read_result with
  | .err err => .error (.Network ("Read err: " ++ err))
  | _ =>
  match env.peer_certificates with
  | none => .error (.Certificate "No certificates")
  | some certs => .ok certs

/-- `Validator::validate_domain` (src/cert.rs lines 109 to 113):
fetch the chain, then validate it. -/
def Validator.validate_domain (v : Validator) (env : NetworkEnv) :
    FetchResult Bool :=
  match read_certificates env with
  | .panicked msg => .panicked msg
  | .error e => .error e
  | .ok blobs =>
    match v.validate_certificates blobs with
    | .error e => .error e
    | .ok b => .ok b

/-- The per-domain status record (`Status` in both lambda crates). -/
structure Status where
  domain : String
  valid : Bool
  error : String
  deriving Repr, DecidableEq

/-- The per-domain arm of `function_handler` in the monitor crate
(src/main.rs lines 95 to 106).  The source matches the success case with
the pattern `Ok(())` even though `validate_domain` returns
`Result<bool, _>` — the returned boolean is never consulted — and builds
`valid: true, error: ""`; the error case builds `valid: false` with the
rendered error.  Embedded as written: any success payload maps to
`valid: true`. -/
def handlerStatus (domain : String) (res : Except MonitorError Bool) :
    Status :=
  match res with
  | .ok _ => { domain := domain, valid := true, error := "" }
  | .error e => { domain := domain, valid := false, error := e.toMessage }

/-- The `Report` enum of the reporter crate. -/
inductive Report where
  | Valid (u : Unit)
  | Invalid (msg : String)
  deriving Repr, DecidableEq

/-- `aggregate` of the reporter crate
(ssl-cert-reporter-lambda/src/main.rs lines 36 to 55): keep the statuses
with `valid == false`; if none, report `Valid`, otherwise compose the
count line followed by one `Domain d (e)` line per invalid status, joined
by newline. -/
def aggregate (statuses : List Status) : Except String Report :=
  let invalid_statuses := statuses.filter (fun status => !status.valid)
  if invalid_statuses.isEmpty then
    .ok (.Valid ())
  else
    let message := "Found " ++ toString invalid_statuses.length
      ++ " issues.\n"
      ++ String.intercalate "\n"
          (invalid_statuses.map
            (fun status =>
              "Domain " ++ status.domain ++ " (" ++ status.error ++ ")"))
    .ok (.Invalid message)

/-- Written from the spec text of claim C7: one line
`Domain d (e)` per invalid status, in input order, valid entries
contributing nothing. -/
def specIssueLines : List Status → List String
  | [] => []
  | s :: rest =>
    if s.valid then specIssueLines rest
    else ("Domain " ++ s.domain ++ " (" ++ s.error ++ ")") :: specIssueLines rest

/-- Written from the spec text of claim C7: the expected `Invalid` payload,
a count line `Found n issues.` followed by the issue lines joined by
newline. -/
def specInvalidMessage (xs : List Status) : String :=
  "Found " ++ toString (specIssueLines xs).length ++ " issues.\n"
    ++ String.intercalate "\n" (specIssueLines xs)

/-- The report value `aggregate` wraps in `Ok`: the same case split as
`aggregate`, with the `Result` layer stripped. -/
def aggregateReport (statuses : List Status) : Report :=
  let invalid_statuses := statuses.filter (fun status => !status.valid)
  if invalid_statuses.isEmpty then
    .Valid ()
  else
    .Invalid ("Found " ++ toString invalid_statuses.length
      ++ " issues.\n"
      ++ String.intercalate "\n"
          (invalid_statuses.map
            (fun status =>
              "Domain " ++ status.domain ++ " (" ++ status.error ++ ")")))

/-! Helper lemmas shared by the claim theorems. -/

/-- Once the accumulator of the `validate_certificates` fold is `false` it
stays `false` and no certificate is examined any more: the loop returns
`Ok(false)` whatever the remaining blobs are. -/
theorem Validator.validateLoop_false (v : Validator) (blobs : List CertBlob) :
    v.validateLoop blobs false = .ok false := by
  induction blobs with
  | nil => rfl
  | cons cert rest ih =>
    simp [Validator.validateLoop, ih]

/-- `aggregate` always succeeds, returning `aggregateReport`. -/
theorem aggregate_eq_ok (xs : List Status) :
    aggregate xs = .ok (aggregateReport xs) := by
  simp only [aggregate, aggregateReport]
  split <;> rfl

/-- `specIssueLines` computes exactly the lines `aggregate` builds from the
filtered invalid statuses. -/
theorem specIssueLines_eq_filter_map (xs : List Status) :
    specIssueLines xs
      = (xs.filter (fun status => !status.valid)).map
          (fun status =>
            "Domain " ++ status.domain ++ " (" ++ status.error ++ ")") := by
  induction xs with
  | nil => rfl
  | cons s rest ih =>
    by_cases hv : s.valid <;> simp [specIssueLines, hv, ih, List.filter_cons]

/-! Claim theorems. -/

/-- C1: the claim says that a chain of length at least 2 in which every
per-certificate check returns `true` makes `validate_certificates` return
`Ok(true)`, the fold starting its accumulator at `true`.  The code starts
the accumulator at `false` (src/cert.rs line 102), so on a two-element
chain whose certificates each individually validate to `Ok(true)` the
chain result is `Ok(false)`. -/
theorem claim_C1_all_true_chain_reports_false :
    ((Validator.mk 0 1000).validate_certificate (.ok 0 1000000000)
      = .ok true)
    ∧ ((Validator.mk 0 1000).validate_certificates
        [.ok 0 1000000000, .ok 0 1000000000] = .ok false) :=
  ⟨rfl, rfl⟩

/-- C2: the claim says that a chain of length at least 2 holding a
certificate outside its absolute validity bounds makes
`validate_certificates` fail with a `Certificate` error.  Because the fold
accumulator starts at `false` and Rust `&&` short-circuits, the expired
certificate is never examined: on a two-element chain whose second
certificate is expired (its own check is the hard `Certificate is after`
error) the chain result is `Ok(false)`, not an error. -/
theorem claim_C2_expired_chain_not_error :
    ((Validator.mk 0 1000).validate_certificate (.ok 0 500)
      = .error (.Certificate "Certificate is after"))
    ∧ ((Validator.mk 0 1000).validate_certificates
        [.ok 0 1000000000, .ok 0 500] = .ok false) :=
  ⟨rfl, rfl⟩

/-- C4: the claim says a TCP connect failure during the chain fetch is
converted into a `Network` error and never panics.  The code calls
`TcpStream::connect(..).unwrap()` (src/cert.rs line 40), so a connect
failure panics: at an environment whose only failing step is the TCP
connection, `read_certificates` panics instead of producing a
`Network` error. -/
theorem claim_C4_connect_failure_panics :
    read_certificates
      { server_name := .ok (), conn_setup := .ok (),
        tcp_connect := .error "Connection refused (os error 111)",
        write_result := .ok (), flush_result := .ok (),
        read_result := .ok, peer_certificates := some [] }
      = .panicked "Connection refused (os error 111)" :=
  rfl

/-- C5: the claim says the handler reports `valid: result` on success,
`result` being the boolean from chain validation, so a chain-level
`Ok(false)` yields `valid: false` with an empty error.  The handler
(src/main.rs lines 95 to 100) matches success with `Ok(())`, never
consulting the boolean, and builds `valid: true`: on `Ok(false)` the
status is `valid: true`. -/
theorem claim_C5_soft_false_reported_valid :
    handlerStatus "example.com" (.ok false)
      = { domain := "example.com", valid := true, error := "" } :=
  rfl

/-- C6: a chain of length 0 or 1 makes `validate_certificates` fail with a
`Certificate` error, regardless of the blobs present. -/
theorem claim_C6_short_chain_error (v : Validator) (blobs : List CertBlob)
    (h : blobs.length < 2) :
    v.validate_certificates blobs
      = .error (.Certificate "No certificates in chain") := by
  simp [Validator.validate_certificates, h]

/-- Witness for C6 at the singleton chain holding one decodable
certificate. -/
theorem claim_C6_short_chain_error_witness :
    (Validator.mk 0 1000).validate_certificates [.ok 0 1000000000]
      = .error (.Certificate "No certificates in chain") :=
  claim_C6_short_chain_error (Validator.mk 0 1000) [.ok 0 1000000000]
    (by decide)

/-- C10: a decodable certificate with `not_before ≤ now` evaluated at
`now = not_after` is a soft `Ok(false)` for every `max_expiration`, since
the expired branch tests the strict `now > not_after`. -/
theorem claim_C10_expiry_instant_soft (v : Validator) (nb : Int)
    (h : nb ≤ v.now) :
    v.validate_certificate (.ok nb v.now) = .ok false := by
  simp only [Validator.validate_certificate, addDays]
  rw [if_neg (by omega), if_neg (by omega), if_pos (by omega)]

/-- Witness for C10: a certificate valid from 0, expiring exactly at
`now = 1000`, checked with a 7 day window. -/
theorem claim_C10_expiry_instant_soft_witness :
    (Validator.mk 7 1000).validate_certificate (.ok 0 1000) = .ok false :=
  claim_C10_expiry_instant_soft (Validator.mk 7 1000) 0 (by decide)

/-- C3: the single-certificate check at the fixed `now` returns the
`before` error when `now < not_before`, an error when `now > not_after`,
`Ok(false)` when `now` is inside the window but
`now + max_expiration days ≥ not_after`, and `Ok(true)` when `now` is
inside the window and `now + max_expiration days < not_after`. -/
theorem claim_C3_single_certificate_cases (v : Validator) (nb na : Int) :
    (v.now < nb →
      v.validate_certificate (.ok nb na)
        = .error (.Certificate "Certificate is before"))
    ∧ (na < v.now →
      ∃ msg, v.validate_certificate (.ok nb na) = .error (.Certificate msg))
    ∧ (nb ≤ v.now → v.now ≤ na → na ≤ addDays v.now v.max_expiration →
      v.validate_certificate (.ok nb na) = .ok false)
    ∧ (nb ≤ v.now → v.now ≤ na → addDays v.now v.max_expiration < na →
      v.validate_certificate (.ok nb na) = .ok true) := by
  refine ⟨?_, ?_, ?_, ?_⟩
  · intro h
    simp only [Validator.validate_certificate]
    rw [if_pos h]
  · intro h
    simp only [Validator.validate_certificate]
    by_cases h1 : v.now < nb
    · exact ⟨"Certificate is before", by rw [if_pos h1]⟩
    · exact ⟨"Certificate is after", by rw [if_neg h1, if_pos (by omega)]⟩
  · intro h1 h2 h3
    simp only [addDays] at h3
    simp only [Validator.validate_certificate, addDays]
    rw [if_neg (by omega), if_neg (by omega), if_pos (by omega)]
  · intro h1 h2 h3
    simp only [addDays] at h3
    simp only [Validator.validate_certificate, addDays]
    rw [if_neg (by omega), if_neg (by omega), if_neg (by omega)]

/-- Witness for C3: a validator at `now = 1000` with a 0 day window accepts
a certificate valid on `[0, 2000000]`. -/
theorem claim_C3_single_certificate_cases_witness :
    (Validator.mk 0 1000).validate_certificate (.ok 0 2000000) = .ok true :=
  (claim_C3_single_certificate_cases (Validator.mk 0 1000) 0 2000000).2.2.2
    (by decide) (by decide) (by decide)

/-- C7: whenever some status is invalid, `aggregate` returns
`Ok(Invalid(message))` where `message` is the count line followed by one
`Domain d (e)` line per invalid status, joined by newline, in input order,
valid entries contributing nothing (`specInvalidMessage` states this from
the spec's words). -/
theorem claim_C7_invalid_report (xs : List Status)
    (h : ∃ s ∈ xs, s.valid = false) :
    aggregate xs = .ok (.Invalid (specInvalidMessage xs)) := by
  obtain ⟨s, hmem, hval⟩ := h
  have hfil : s ∈ xs.filter (fun status => !status.valid) :=
    List.mem_filter.mpr ⟨hmem, by simp [hval]⟩
  have hne : (xs.filter (fun status => !status.valid)).isEmpty = false := by
    cases hfl : xs.filter (fun status => !status.valid) with
    | nil => rw [hfl] at hfil; cases hfil
    | cons a l => rfl
  simp only [aggregate, specInvalidMessage, specIssueLines_eq_filter_map,
    List.length_map, hne, Bool.false_eq_true, if_false]

/-- Witness for C7 at the spec's scenario input. -/
theorem claim_C7_invalid_report_witness :
    aggregate [{ domain := "foobar", valid := false, error := "oops" }]
      = .ok (.Invalid "Found 1 issues.\nDomain foobar (oops)") :=
  (claim_C7_invalid_report
      [{ domain := "foobar", valid := false, error := "oops" }]
      ⟨{ domain := "foobar", valid := false, error := "oops" },
        by simp, rfl⟩).trans rfl

/-- C8: `aggregate` returns `Valid` exactly when no status is invalid, and
returns `Valid` on the empty sequence. -/
theorem claim_C8_valid_iff_all_valid (xs : List Status) :
    (aggregate xs = .ok (.Valid ()) ↔ ∀ s ∈ xs, s.valid = true)
    ∧ aggregate ([] : List Status) = .ok (.Valid ()) := by
  constructor
  · constructor
    · intro h s hs
      by_cases he : (xs.filter (fun status => !status.valid)).isEmpty
      · have hnil := List.isEmpty_iff.mp he
        have := List.filter_eq_nil_iff.mp hnil s hs
        simpa using this
      · simp only [aggregate] at h
        rw [if_neg (by simpa using he)] at h
        cases h
    · intro hall
      have hnil : xs.filter (fun status => !status.valid) = [] :=
        List.filter_eq_nil_iff.mpr (fun s hs => by simp [hall s hs])
      simp [aggregate, hnil]
  · rfl

/-- C9: `aggregate` is total (always `Ok`) and deterministic. -/
theorem claim_C9_total_deterministic (xs : List Status) :
    (∃ r, aggregate xs = .ok r) ∧ aggregate xs = aggregate xs :=
  ⟨⟨aggregateReport xs, aggregate_eq_ok xs⟩, rfl⟩

end SslCertMonitor
